import Mathlib

/-!
Shallow embedding of the wasm-hands-on CRM demo: two parallel
implementations (axum-crm and spin-crm) of a gateway, a customer service
and an order service.  Pure request/response handlers are modelled as
Lean functions; the relational store is explicit state (a list of rows
plus a next-id counter); outbound HTTP calls (the order service's
customer verification, the gateway's upstream forwarding) are modelled
by passing the outcome of the call as an argument and recording the
request that was issued.  Elapsed-time measurements (floats in the
source) are abstracted as opaque strings carried in a `Timing` record.
-/

namespace Crm

/-- HTTP methods the services distinguish. -/
inductive Method where
  | get | post | put | delete | patch | head | options
deriving DecidableEq, Repr

/-- An HTTP response: status code, headers (in order), body. -/
structure HttpResponse where
  status : Nat
  headers : List (String × String)
  body : String
deriving DecidableEq, Repr

/-- The fixed content-type header both implementations attach. -/
def contentTypeJson : String × String := ("content-type", "application/json")

/-- `json_response` of all services: given status and body, attach
`content-type: application/json`. -/
def json_response (status : Nat) (body : String) : HttpResponse :=
  ⟨status, [contentTypeJson], body⟩

/-- Elapsed-time strings (the `{:.1}`/`{:.3}`-formatted floats of the
source, abstracted as opaque strings). -/
structure Timing where
  connMs : String
  verifyMs : String
  queryMs : String
  serMs : String
  computeMs : String
deriving DecidableEq, Repr

/-- The `server-timing` value of `timed_response`:
`conn;dur=.., query;dur=.., ser;dur=..`. -/
def timingHeaderValue (t : Timing) : String :=
  "conn;dur=" ++ t.connMs ++ ", query;dur=" ++ t.queryMs ++ ", ser;dur=" ++ t.serMs

/-- `timed_response` of all services: json content type plus a
server-timing header. -/
def timed_response (status : Nat) (body : String) (t : Timing) : HttpResponse :=
  ⟨status, [contentTypeJson, ("server-timing", timingHeaderValue t)], body⟩

/-- Response body constants (the braces of the JSON literals are
written as hex escapes). -/
def statusOkBody : String := "\x7b\"status\":\"ok\"\x7d"

def methodNotAllowedBody : String := "\x7b\"error\":\"Method not allowed\"\x7d"

def invalidJsonBody : String := "\x7b\"error\":\"Invalid JSON\"\x7d"

def notFoundBody : String := "\x7b\"error\":\"Not found\"\x7d"

def customerNotFoundBody : String := "\x7b\"error\":\"Customer not found\"\x7d"

def orderNotFoundBody : String := "\x7b\"error\":\"Order not found\"\x7d"

def customerUnavailableBody : String := "\x7b\"error\":\"Customer service unavailable\"\x7d"

/-! ## Fibonacci (gateway `/compute`) — identical in both gateways -/

/-- 2^64, the modulus of Rust's `u64` wrapping arithmetic. -/
def U64 : Nat := 2 ^ 64

/-- The loop `for _ in 2..=n { let tmp = a.wrapping_add(b); a = b; b = tmp; }`,
unrolled as a recursion on the number of remaining iterations. -/
def fibLoop : Nat → Nat × Nat → Nat × Nat
  | 0, ab => ab
  | k + 1, (a, b) => fibLoop k (b, (a + b) % U64)

/-- `fibonacci` of both gateways: `n` for `n ≤ 1`, otherwise the second
component after `n - 1` wrapping iterations from `(0, 1)`. -/
def fibonacci (n : Nat) : Nat :=
  if n ≤ 1 then n else (fibLoop (n - 1) (0, 1)).2

theorem fibLoop_fib (k : Nat) :
    ∀ m, fibLoop k (Nat.fib m % U64, Nat.fib (m + 1) % U64) =
      (Nat.fib (m + k) % U64, Nat.fib (m + k + 1) % U64) := by
  induction k with
  | zero => intro m; rfl
  | succ k ih =>
    intro m
    have h2 : (Nat.fib m % U64 + Nat.fib (m + 1) % U64) % U64 = Nat.fib (m + 1 + 1) % U64 := by
      rw [← Nat.add_mod]
      congr 1
      exact Nat.fib_add_two.symm
    calc fibLoop (k + 1) (Nat.fib m % U64, Nat.fib (m + 1) % U64)
        = fibLoop k (Nat.fib (m + 1) % U64, Nat.fib (m + 1 + 1) % U64) := by
          rw [fibLoop, h2]
      _ = (Nat.fib (m + 1 + k) % U64, Nat.fib (m + 1 + k + 1) % U64) := ih (m + 1)
      _ = (Nat.fib (m + (k + 1)) % U64, Nat.fib (m + (k + 1) + 1) % U64) := by
          rw [show m + 1 + k = m + (k + 1) from by omega]

theorem fibonacci_eq_fib_mod (n : Nat) : fibonacci n = Nat.fib n % U64 := by
  by_cases h : n ≤ 1
  · interval_cases n <;> rfl
  · rw [fibonacci, if_neg h]
    have hstep := fibLoop_fib (n - 1) 0
    simp only [Nat.zero_add] at hstep
    have h0 : Nat.fib 0 % U64 = 0 := by simp
    have h1 : Nat.fib 1 % U64 = 1 := by
      rw [Nat.fib_one]
      exact Nat.mod_eq_of_lt (by norm_num [U64])
    rw [h0, h1] at hstep
    rw [hstep, show n - 1 + 1 = n from by omega]

/-- C7: the gateways' `fibonacci` computes the n-th Fibonacci number of
the recurrence fib(0)=0, fib(1)=1 reduced modulo 2^64 (Rust `u64`
wraparound), and in particular `fibonacci 10 = 55`. -/
theorem C7_fibonacci_wraparound :
    (∀ n, fibonacci n = Nat.fib n % U64) ∧ fibonacci 10 = 55 :=
  ⟨fibonacci_eq_fib_mod, by decide⟩

/-! ## String primitives (character-level models of the Rust `str`
operations the services use) -/

/-- Rust `str::contains(char)`. -/
def containsChar (s : String) (c : Char) : Bool := s.data.contains c

/-- Rust `str::starts_with(..)`. -/
def strStartsWith (s pre : String) : Bool := List.isPrefixOf pre.data s.data

/-- Split a character list at every occurrence of `c`
(Rust `str::split(char)`: the empty input yields one empty piece). -/
def splitChars (c : Char) : List Char → List (List Char)
  | [] => [[]]
  | x :: xs =>
    if x = c then [] :: splitChars c xs
    else
      match splitChars c xs with
      | [] => [[x]]
      | y :: ys => (x :: y) :: ys

/-- Rust `str::split(char)` collected into a list of pieces. -/
def splitOnChar (s : String) (c : Char) : List String :=
  (splitChars c s.data).map String.mk

/-- Decimal value of a digit list. -/
def digitsToNat (l : List Char) : Nat :=
  l.foldl (fun acc c => acc * 10 + (c.toNat - 48)) 0

/-- ASCII lower-casing of a header name. -/
def lowerStr (s : String) : String := String.mk (s.data.map Char.toLower)

/-- Join pieces with a separator (the serde rendering of arrays). -/
def joinSep (sep : String) : List String → String
  | [] => ""
  | [x] => x
  | x :: xs => x ++ sep ++ joinSep sep xs

/-! ## Integer parsing (Rust `str::parse` for `u64` / `i64`) -/

/-- Rust `"..".parse::<u64>()`: an optional leading `+`, then one or
more digits, value below 2^64. -/
def parseU64 (s : String) : Option Nat :=
  let digits := if strStartsWith s "+" then String.mk (s.data.drop 1) else s
  if digits.isEmpty then none
  else if digits.data.all (fun c => c.isDigit) then
    let n := digitsToNat digits.data
    if n < U64 then some n else none
  else none

/-- Rust `"..".parse::<i64>()`: an optional sign, then one or more
digits, value within the `i64` range. -/
def parseI64 (s : String) : Option Int :=
  let neg := strStartsWith s "-"
  let digits :=
    if strStartsWith s "-" ∨ strStartsWith s "+" then String.mk (s.data.drop 1) else s
  if digits.isEmpty then none
  else if digits.data.all (fun c => c.isDigit) then
    let n := digitsToNat digits.data
    if neg then
      if n ≤ 2 ^ 63 then some (-(n : Int)) else none
    else
      if n < 2 ^ 63 then some (n : Int) else none
  else none

/-! ## Data model and store -/

/-- A customer row (`id`, `name`, `email`). -/
structure Customer where
  id : Int
  name : String
  email : String
deriving DecidableEq, Repr

/-- Parsed `POST /customers` body (both fields optional in the JSON). -/
structure CreateCustomerRequest where
  name : Option String
  email : Option String
deriving DecidableEq, Repr

/-- An order row (`id`, `customer_id`, `product`, `quantity`). -/
structure Order where
  id : Int
  customer_id : Int
  product : String
  quantity : Int
deriving DecidableEq, Repr

/-- Parsed `POST /orders` body (all fields optional in the JSON). -/
structure CreateOrderRequest where
  customer_id : Option Int
  product : Option String
  quantity : Option Int
deriving DecidableEq, Repr

/-- The `customers` table: rows plus the generated-id sequence. -/
structure CustomerStore where
  rows : List Customer
  nextId : Int
deriving DecidableEq, Repr

/-- `SELECT .. FROM customers WHERE id = $1` (first matching row). -/
def CustomerStore.find (s : CustomerStore) (id : Int) : Option Customer :=
  s.rows.find? (fun c => c.id == id)

/-- `INSERT INTO customers .. RETURNING ..`: append a row under the next
generated id. -/
def CustomerStore.insert (s : CustomerStore) (name email : String) :
    CustomerStore × Customer :=
  let c : Customer := ⟨s.nextId, name, email⟩
  (⟨s.rows ++ [c], s.nextId + 1⟩, c)

/-- `DELETE FROM customers WHERE id = $1`: the rows affected. -/
def CustomerStore.affected (s : CustomerStore) (id : Int) : Nat :=
  (s.rows.filter (fun c => c.id == id)).length

/-- The store after `DELETE FROM customers WHERE id = $1`. -/
def CustomerStore.erase (s : CustomerStore) (id : Int) : CustomerStore :=
  ⟨s.rows.filter (fun c => !(c.id == id)), s.nextId⟩

/-- The generated-id sequence is ahead of every stored row (true of the
real store, where ids are assigned from a monotone sequence). -/
def CustomerStore.fresh (s : CustomerStore) : Bool :=
  s.rows.all (fun c => !(c.id == s.nextId))

/-- The `orders` table. -/
structure OrderStore where
  rows : List Order
  nextId : Int
deriving DecidableEq, Repr

/-- `SELECT .. FROM orders WHERE id = $1` (first matching row). -/
def OrderStore.find (s : OrderStore) (id : Int) : Option Order :=
  s.rows.find? (fun o => o.id == id)

/-- `INSERT INTO orders .. RETURNING ..`. -/
def OrderStore.insert (s : OrderStore) (customer_id : Int) (product : String)
    (quantity : Int) : OrderStore × Order :=
  let o : Order := ⟨s.nextId, customer_id, product, quantity⟩
  (⟨s.rows ++ [o], s.nextId + 1⟩, o)

/-- The generated-id sequence is ahead of every stored row. -/
def OrderStore.fresh (s : OrderStore) : Bool :=
  s.rows.all (fun o => !(o.id == s.nextId))

/-! ## JSON serialization (serde output shapes; string escaping of the
field contents is not modelled) -/

/-- `serde_json::to_string` of a `Customer`. -/
def customerJson (c : Customer) : String :=
  "\x7b\"id\":" ++ toString c.id ++ ",\"name\":\"" ++ c.name ++
    "\",\"email\":\"" ++ c.email ++ "\"\x7d"

/-- `serde_json::to_string` of an `Order`. -/
def orderJson (o : Order) : String :=
  "\x7b\"id\":" ++ toString o.id ++ ",\"customer_id\":" ++ toString o.customer_id ++
    ",\"product\":\"" ++ o.product ++ "\",\"quantity\":" ++ toString o.quantity ++ "\x7d"

/-- `serde_json::to_string` of a `Vec<Customer>`. -/
def customersJsonArray (s : CustomerStore) : String :=
  "[" ++ joinSep "," (s.rows.map customerJson) ++ "]"

/-- `serde_json::to_string` of a `Vec<Order>`. -/
def ordersJsonArray (s : OrderStore) : String :=
  "[" ++ joinSep "," (s.rows.map orderJson) ++ "]"

/-! ## Validation error bodies -/

def nameEmailRequiredBody : String :=
  "\x7b\"error\":\"name and email are required\"\x7d"

def nameTooLongBody : String :=
  "\x7b\"error\":\"name must be 255 characters or less\"\x7d"

def invalidEmailBody : String :=
  "\x7b\"error\":\"invalid email format\"\x7d"

def orderFieldsRequiredBody : String :=
  "\x7b\"error\":\"customer_id, product, and quantity are required\"\x7d"

def customerIdPositiveBody : String :=
  "\x7b\"error\":\"customer_id must be positive\"\x7d"

def productTooLongBody : String :=
  "\x7b\"error\":\"product must be 255 characters or less\"\x7d"

def quantityPositiveBody : String :=
  "\x7b\"error\":\"quantity must be positive\"\x7d"

def invalidCustomerIdBody : String :=
  "\x7b\"error\":\"Invalid customer ID\"\x7d"

def invalidOrderIdBody : String :=
  "\x7b\"error\":\"Invalid order ID\"\x7d"

/-- Body of the `ping` diagnostic. -/
def pingBody (t : Timing) : String :=
  "\x7b\"status\":\"ok\",\"conn_ms\":" ++ t.connMs ++ ",\"query_ms\":" ++ t.queryMs ++ "\x7d"

/-- The `server-timing` value of the delete handlers (no `ser` stage). -/
def deleteTimingValue (t : Timing) : String :=
  "conn;dur=" ++ t.connMs ++ ", query;dur=" ++ t.queryMs

/-- The `server-timing` value of the order-create handlers
(`conn`, `verify`, `query`, `ser` stages). -/
def orderCreateTimingValue (t : Timing) : String :=
  "conn;dur=" ++ t.connMs ++ ", verify;dur=" ++ t.verifyMs ++ ", query;dur=" ++
    t.queryMs ++ ", ser;dur=" ++ t.serMs

/-! ## Customer service handlers -/

/-- `create_customer` of axum-crm: `input = none` models a body that is
not valid JSON. Presence/non-emptiness of both fields, then byte-length
and `@` checks, then the insert. -/
def axumCreateCustomer (store : CustomerStore) (input : Option CreateCustomerRequest)
    (t : Timing) : CustomerStore × HttpResponse :=
  match input with
  | none => (store, json_response 400 invalidJsonBody)
  | some req =>
    match req.name with
    | none => (store, json_response 400 nameEmailRequiredBody)
    | some n =>
      if n.isEmpty then (store, json_response 400 nameEmailRequiredBody)
      else
        match req.email with
        | none => (store, json_response 400 nameEmailRequiredBody)
        | some e =>
          if e.isEmpty then (store, json_response 400 nameEmailRequiredBody)
          else if 255 < n.utf8ByteSize then (store, json_response 400 nameTooLongBody)
          else if 255 < e.utf8ByteSize ∨ containsChar e '@' = false then
            (store, json_response 400 invalidEmailBody)
          else
            let (store2, c) := store.insert n e
            (store2, timed_response 201 (customerJson c) t)

/-- `create_customer` of spin-crm: only presence/non-emptiness of both
fields is checked before the insert (no length bound, no `@` check). -/
def spinCreateCustomer (store : CustomerStore) (input : Option CreateCustomerRequest)
    (t : Timing) : CustomerStore × HttpResponse :=
  match input with
  | none => (store, json_response 400 invalidJsonBody)
  | some req =>
    match req.name with
    | none => (store, json_response 400 nameEmailRequiredBody)
    | some n =>
      if n.isEmpty then (store, json_response 400 nameEmailRequiredBody)
      else
        match req.email with
        | none => (store, json_response 400 nameEmailRequiredBody)
        | some e =>
          if e.isEmpty then (store, json_response 400 nameEmailRequiredBody)
          else
            let (store2, c) := store.insert n e
            (store2, timed_response 201 (customerJson c) t)

/-- `get_customer` of axum-crm (the `id` was already parsed by the
`Path<i64>` extractor). -/
def axumGetCustomer (store : CustomerStore) (id : Int) (t : Timing) : HttpResponse :=
  match store.find id with
  | some c => timed_response 200 (customerJson c) t
  | none => json_response 404 customerNotFoundBody

/-- `get_customer` of spin-crm (parses the id segment itself). -/
def spinGetCustomer (store : CustomerStore) (idStr : String) (t : Timing) : HttpResponse :=
  match parseI64 idStr with
  | none => json_response 400 invalidCustomerIdBody
  | some id =>
    match store.find id with
    | some c => timed_response 200 (customerJson c) t
    | none => json_response 404 customerNotFoundBody

/-- `delete_customer` of axum-crm: run the DELETE, then branch on the
affected-row count; 204 has an empty body and no content-type header. -/
def axumDeleteCustomer (store : CustomerStore) (id : Int) (t : Timing) :
    CustomerStore × HttpResponse :=
  let affected := store.affected id
  let store2 := store.erase id
  if affected == 0 then (store2, json_response 404 customerNotFoundBody)
  else (store2, ⟨204, [("server-timing", deleteTimingValue t)], ""⟩)

/-- `delete_customer` of spin-crm: SELECT first, 404 when no row, else
DELETE and answer 204 with an empty body. -/
def spinDeleteCustomer (store : CustomerStore) (idStr : String) (t : Timing) :
    CustomerStore × HttpResponse :=
  match parseI64 idStr with
  | none => (store, json_response 400 invalidCustomerIdBody)
  | some id =>
    if (store.rows.filter (fun c => c.id == id)).isEmpty then
      (store, json_response 404 customerNotFoundBody)
    else (store.erase id, ⟨204, [("server-timing", deleteTimingValue t)], ""⟩)

/-! ## Order service handlers -/

/-- Outcome of the synchronous customer-existence call: the HTTP status
the customer service answered, or a transport failure. -/
inductive VerifyOutcome where
  | ok (status : Nat)
  | err
deriving DecidableEq, Repr

/-- Result of an order-service handler: the store afterwards, the
response, and the URL of the verification GET when one was issued. -/
structure OrderCreateResult where
  store : OrderStore
  resp : HttpResponse
  verifyUrl : Option String
deriving DecidableEq, Repr

/-- `create_order` of axum-crm: presence of the three fields and a
non-empty product are the only local checks; then the verification GET
`{customer_service_url}/customers/{customer_id}`; then the insert. -/
def axumCreateOrder (customerServiceUrl : String) (store : OrderStore)
    (input : Option CreateOrderRequest) (verify : VerifyOutcome) (t : Timing) :
    OrderCreateResult :=
  match input with
  | none => ⟨store, json_response 400 invalidJsonBody, none⟩
  | some req =>
    match req.customer_id with
    | none => ⟨store, json_response 400 orderFieldsRequiredBody, none⟩
    | some customer_id =>
      match req.product with
      | none => ⟨store, json_response 400 orderFieldsRequiredBody, none⟩
      | some p =>
        if p.isEmpty then ⟨store, json_response 400 orderFieldsRequiredBody, none⟩
        else
          match req.quantity with
          | none => ⟨store, json_response 400 orderFieldsRequiredBody, none⟩
          | some quantity =>
            let url := customerServiceUrl ++ "/customers/" ++ toString customer_id
            match verify with
            | .ok s =>
              if s = 200 then
                let (store2, o) := store.insert customer_id p quantity
                ⟨store2,
                 ⟨201, [contentTypeJson, ("server-timing", orderCreateTimingValue t)],
                  orderJson o⟩,
                 some url⟩
              else ⟨store, json_response 400 customerNotFoundBody, some url⟩
            | .err => ⟨store, json_response 502 customerUnavailableBody, some url⟩

/-- `create_order` of spin-crm: full local validation (positivity,
product byte-length bound) with distinct messages, then the same
verification GET, then the insert. -/
def spinCreateOrder (customerServiceUrl : String) (store : OrderStore)
    (input : Option CreateOrderRequest) (verify : VerifyOutcome) (t : Timing) :
    OrderCreateResult :=
  match input with
  | none => ⟨store, json_response 400 invalidJsonBody, none⟩
  | some req =>
    match req.customer_id with
    | none => ⟨store, json_response 400 orderFieldsRequiredBody, none⟩
    | some customer_id =>
      if customer_id ≤ 0 then ⟨store, json_response 400 customerIdPositiveBody, none⟩
      else
        match req.product with
        | none => ⟨store, json_response 400 orderFieldsRequiredBody, none⟩
        | some p =>
          if p.isEmpty = false ∧ p.utf8ByteSize ≤ 255 then
            match req.quantity with
            | none => ⟨store, json_response 400 orderFieldsRequiredBody, none⟩
            | some q =>
              if q ≤ 0 then ⟨store, json_response 400 quantityPositiveBody, none⟩
              else
                let url := customerServiceUrl ++ "/customers/" ++ toString customer_id
                match verify with
                | .ok s =>
                  if s = 200 then
                    let (store2, o) := store.insert customer_id p q
                    ⟨store2,
                     ⟨201, [contentTypeJson, ("server-timing", orderCreateTimingValue t)],
                      orderJson o⟩,
                     some url⟩
                  else ⟨store, json_response 400 customerNotFoundBody, some url⟩
                | .err => ⟨store, json_response 502 customerUnavailableBody, some url⟩
          else if 255 < p.utf8ByteSize then
            ⟨store, json_response 400 productTooLongBody, none⟩
          else ⟨store, json_response 400 orderFieldsRequiredBody, none⟩

/-- `get_order` of axum-crm. -/
def axumGetOrder (store : OrderStore) (id : Int) (t : Timing) : HttpResponse :=
  match store.find id with
  | some o => timed_response 200 (orderJson o) t
  | none => json_response 404 orderNotFoundBody

/-- `get_order` of spin-crm. -/
def spinGetOrder (store : OrderStore) (idStr : String) (t : Timing) : HttpResponse :=
  match parseI64 idStr with
  | none => json_response 400 invalidOrderIdBody
  | some id =>
    match store.find id with
    | some o => timed_response 200 (orderJson o) t
    | none => json_response 404 orderNotFoundBody

/-! ## Routing -/

/-- Remove all trailing `/` (Rust `trim_end_matches('/')`). -/
def trimEndSlashes (s : String) : String :=
  String.mk ((s.data.reverse.dropWhile (fun c => c == '/')).reverse)

/-- `parse_path` of both spin services, reduced to the resource id it
extracts (its constant first component is unused by the callers): strip
the query, trim trailing slashes, split on `/`, and return the third
piece when present and non-empty. -/
def parse_path (uri : String) : Option String :=
  let path := (splitOnChar uri '?').headD uri
  let path := trimEndSlashes path
  let parts := splitOnChar path '/'
  match parts.get? 2 with
  | some seg => if seg.isEmpty then none else some seg
  | none => none

/-- The single path parameter of an axum `{id}` route under `base`:
the non-empty remainder after `base ++ "/"` when it contains no
further `/`. -/
def pathParam (path base : String) : Option String :=
  if strStartsWith path (base ++ "/") then
    let seg := String.mk (path.data.drop (base ++ "/").data.length)
    if seg.isEmpty ∨ containsChar seg '/' then none else some seg
  else none

/-- The axum `Path<i64>` extractor's rejection (a plain-text 400). -/
def pathRejection : HttpResponse :=
  ⟨400, [("content-type", "text/plain; charset=utf-8")], "Invalid URL"⟩

/-- axum's built-in method-not-allowed response, returned by a matched
route's `MethodRouter` when the request's method is not registered for
it: status 405 with an empty body (the `Allow` header it attaches is
not modelled). The router-level `method_not_allowed` fallback of the
services runs only for paths matching no route. -/
def axumDefault405 : HttpResponse := ⟨405, [], ""⟩

/-- The axum-crm customer service router: the path is matched first
(static routes `/healthz`, `/customers/ping`, `/customers`, then the
`/customers/{id}` pattern); a matched path dispatches on the method,
answering `axumDefault405` for a method the route does not register;
only a path matching no route reaches the `method_not_allowed`
fallback. -/
def axumCustomerHandle (store : CustomerStore) (m : Method) (path : String)
    (input : Option CreateCustomerRequest) (t : Timing) : CustomerStore × HttpResponse :=
  if path = "/healthz" then
    if m = Method.get then (store, json_response 200 statusOkBody)
    else (store, axumDefault405)
  else if path = "/customers/ping" then
    if m = Method.get then (store, timed_response 200 (pingBody t) { t with serMs := "0.0" })
    else (store, axumDefault405)
  else if path = "/customers" then
    if m = Method.get then (store, timed_response 200 (customersJsonArray store) t)
    else if m = Method.post then axumCreateCustomer store input t
    else (store, axumDefault405)
  else
    match pathParam path "/customers" with
    | some seg =>
      if m = Method.get then
        match parseI64 seg with
        | some id => (store, axumGetCustomer store id t)
        | none => (store, pathRejection)
      else if m = Method.delete then
        match parseI64 seg with
        | some id => axumDeleteCustomer store id t
        | none => (store, pathRejection)
      else (store, axumDefault405)
    | none => (store, json_response 405 methodNotAllowedBody)

/-- The axum-crm order service router: path first (`/healthz`,
`/orders`, then `/orders/{id}`), then the method within the matched
route; unmatched methods on a matched path get `axumDefault405`, and
only unmatched paths reach the `method_not_allowed` fallback. -/
def axumOrderHandle (customerServiceUrl : String) (store : OrderStore) (m : Method)
    (path : String) (input : Option CreateOrderRequest) (verify : VerifyOutcome)
    (t : Timing) : OrderCreateResult :=
  if path = "/healthz" then
    if m = Method.get then ⟨store, json_response 200 statusOkBody, none⟩
    else ⟨store, axumDefault405, none⟩
  else if path = "/orders" then
    if m = Method.get then ⟨store, timed_response 200 (ordersJsonArray store) t, none⟩
    else if m = Method.post then axumCreateOrder customerServiceUrl store input verify t
    else ⟨store, axumDefault405, none⟩
  else
    match pathParam path "/orders" with
    | some seg =>
      if m = Method.get then
        match parseI64 seg with
        | some id => ⟨store, axumGetOrder store id t, none⟩
        | none => ⟨store, pathRejection, none⟩
      else ⟨store, axumDefault405, none⟩
    | none => ⟨store, json_response 405 methodNotAllowedBody, none⟩

/-- `handle_request` of the spin-crm customer service: `/healthz` is
answered before the database connection is opened; every other request
opens the connection first (`connOk = false` models `Connection::open`
failing, which the `?` operator propagates as a handler error), and is
then dispatched on `(method, resource id)`. -/
def spinCustomerHandle (connOk : Bool) (store : CustomerStore) (m : Method)
    (path : String) (input : Option CreateCustomerRequest) (t : Timing) :
    Except String (CustomerStore × HttpResponse) :=
  if path = "/healthz" then .ok (store, json_response 200 statusOkBody)
  else if connOk = false then .error "failed to open database connection"
  else
    match m with
    | .get =>
      (match parse_path path with
       | some idStr =>
         if idStr = "ping" then
           .ok (store, timed_response 200 (pingBody t) { t with serMs := "0.0" })
         else .ok (store, spinGetCustomer store idStr t)
       | none => .ok (store, timed_response 200 (customersJsonArray store) t))
    | .post =>
      (match parse_path path with
       | none => .ok (spinCreateCustomer store input t)
       | some _ => .ok (store, json_response 405 methodNotAllowedBody))
    | .delete =>
      (match parse_path path with
       | some idStr => .ok (spinDeleteCustomer store idStr t)
       | none => .ok (store, json_response 405 methodNotAllowedBody))
    | .put | .patch | .head | .options =>
      .ok (store, json_response 405 methodNotAllowedBody)

/-- `handle_request` of the spin-crm order service: same shape
(healthz, then the connection, then the `(method, resource id)`
dispatch). -/
def spinOrderHandle (connOk : Bool) (customerServiceUrl : String) (store : OrderStore)
    (m : Method) (path : String) (input : Option CreateOrderRequest)
    (verify : VerifyOutcome) (t : Timing) : Except String OrderCreateResult :=
  if path = "/healthz" then .ok ⟨store, json_response 200 statusOkBody, none⟩
  else if connOk = false then .error "failed to open database connection"
  else
    match m with
    | .get =>
      (match parse_path path with
       | none => .ok ⟨store, timed_response 200 (ordersJsonArray store) t, none⟩
       | some idStr => .ok ⟨store, spinGetOrder store idStr t, none⟩)
    | .post =>
      (match parse_path path with
       | none => .ok (spinCreateOrder customerServiceUrl store input verify t)
       | some _ => .ok ⟨store, json_response 405 methodNotAllowedBody, none⟩)
    | .put | .delete | .patch | .head | .options =>
      .ok ⟨store, json_response 405 methodNotAllowedBody, none⟩

/-! ## Gateway -/

/-- The request the gateway sends upstream. -/
structure OutboundRequest where
  method : Method
  url : String
  headers : List (String × String)
  body : String
deriving DecidableEq, Repr

/-- Outcome of the upstream call (`reqwest`/`spin_sdk::http::send`):
a response, or a transport error with its message. -/
inductive UpstreamResult where
  | ok (resp : HttpResponse)
  | err (msg : String)
deriving DecidableEq, Repr

/-- Result of a gateway invocation: the upstream request issued, when
one was, and the response returned to the client. -/
structure GatewayResult where
  sent : Option OutboundRequest
  resp : HttpResponse
deriving DecidableEq, Repr

/-- Case-insensitive response-header lookup (header names are matched
ignoring ASCII case in both implementations). -/
def findHeader (headers : List (String × String)) (name : String) : Option String :=
  (headers.find? (fun p => lowerStr p.1 == name)).map (fun p => p.2)

/-- Body of the `/compute` response. -/
def computeBody (n : Nat) (t : Timing) : String :=
  "\x7b\"n\":" ++ toString n ++ ",\"result\":\"" ++ toString (fibonacci n) ++
    "\",\"compute_ms\":" ++ t.computeMs ++ "\x7d"

/-- The full `/compute` response (status 200, json content type, a
`compute;dur=..` server-timing header). -/
def computeResponse (n : Nat) (t : Timing) : HttpResponse :=
  ⟨200, [contentTypeJson, ("server-timing", "compute;dur=" ++ t.computeMs)],
    computeBody n t⟩

/-- Rust `pair.splitn(2, '=')`: the part before the first `=`, and the
remainder when an `=` is present. -/
def splitFirstEq (pair : String) : String × Option String :=
  match splitOnChar pair '=' with
  | [] => ("", none)
  | [k] => (k, none)
  | k :: v :: rest => (k, some (joinSep "=" (v :: rest)))

/-- The loop of `parse_query_param`: on the first pair whose key
matches, return the parse of its value — `None` when the pair has no
`=` (the `?` propagates) or the value is not a `u64`. -/
def queryLookupLoop (key : String) : List String → Option Nat
  | [] => none
  | pair :: rest =>
    let kv := splitFirstEq pair
    if kv.1 = key then
      match kv.2 with
      | none => none
      | some v => parseU64 v
    else queryLookupLoop key rest

/-- `parse_query_param` of the spin-crm gateway. -/
def parse_query_param (uri key : String) : Option Nat :=
  match (splitOnChar uri '?').get? 1 with
  | none => none
  | some query => queryLookupLoop key (splitOnChar query '&')

/-- The axum `Query<ComputeParams>` extraction over the raw query
string (`""` when the URI has no query): `none` models the extractor
rejection — the field `n` is present but does not deserialize as a
`u64` — which answers 400 before the handler runs; `some none` means
`n` is absent; `some (some v)` is a parsed value. -/
def axumExtractComputeN (query : String) : Option (Option Nat) :=
  let pairs := if query.isEmpty then [] else splitOnChar query '&'
  match pairs.find? (fun pair => (splitFirstEq pair).1 == "n") with
  | none => some none
  | some pair =>
    match (splitFirstEq pair).2 with
    | none => none
    | some v =>
      match parseU64 v with
      | some m => some (some m)
      | none => none

/-- The `Query` extractor's rejection (a plain-text 400). -/
def queryRejection : HttpResponse :=
  ⟨400, [("content-type", "text/plain; charset=utf-8")],
    "Failed to deserialize query string"⟩

def upstreamUnavailableBody (e : String) : String :=
  "\x7b\"error\":\"Upstream unavailable: " ++ e ++ "\"\x7d"

/-- What the gateway answers from an upstream response: the upstream
status and body are kept, all upstream headers are dropped in favour of
`content-type: application/json`, except that a `server-timing` header
is relayed when present. (The axum gateway rebuilds the status via
`StatusCode::from_u16(r.status().as_u16())`, the identity on the valid
statuses a client can receive.) -/
def proxyResponse (r : HttpResponse) : HttpResponse :=
  match findHeader r.headers "server-timing" with
  | some v => ⟨r.status, [contentTypeJson, ("server-timing", v)], r.body⟩
  | none => ⟨r.status, [contentTypeJson], r.body⟩

/-- The proxy step shared by both gateways: send method, original path
appended to the backend base URL, a fixed json content-type header and
the original body; relay the upstream response, or answer 502 on
transport failure. -/
def forward (base : String) (m : Method) (path body : String)
    (upstream : UpstreamResult) : GatewayResult :=
  let out : OutboundRequest := ⟨m, base ++ path, [contentTypeJson], body⟩
  match upstream with
  | .ok r => ⟨some out, proxyResponse r⟩
  | .err e => ⟨some out, json_response 502 (upstreamUnavailableBody e)⟩

/-- The axum-crm gateway (router plus `compute_handler` and
`proxy_handler`); the literal routes `/healthz` and `/compute` are
modelled by their path (the claims only exercise them with GET). -/
def axumGatewayHandle (customerUrl orderUrl : String) (m : Method)
    (path query body : String) (t : Timing) (upstream : UpstreamResult) : GatewayResult :=
  if path = "/healthz" then ⟨none, json_response 200 statusOkBody⟩
  else if path = "/compute" then
    match axumExtractComputeN query with
    | none => ⟨none, queryRejection⟩
    | some nOpt => ⟨none, computeResponse (nOpt.getD 1000) t⟩
  else if strStartsWith path "/customers" then forward customerUrl m path body upstream
  else if strStartsWith path "/orders" then forward orderUrl m path body upstream
  else ⟨none, json_response 404 notFoundBody⟩

/-- `handle_request` of the spin-crm gateway. -/
def spinGatewayHandle (customerUrl orderUrl : String) (m : Method)
    (path uri body : String) (t : Timing) (upstream : UpstreamResult) : GatewayResult :=
  if path = "/healthz" then ⟨none, json_response 200 statusOkBody⟩
  else if path = "/compute" then
    ⟨none, computeResponse ((parse_query_param uri "n").getD 1000) t⟩
  else if strStartsWith path "/customers" then forward customerUrl m path body upstream
  else if strStartsWith path "/orders" then forward orderUrl m path body upstream
  else ⟨none, json_response 404 notFoundBody⟩

/-! ## Theorems -/

/-- C1: for every create-order request that passes local field
validation, both order services issue the verification GET to
`{customer_service_url}/customers/{customer_id}` and act on exactly
three outcomes: HTTP 200 → the order row is inserted and 201 returned;
any other answered status → 400 `Customer not found` with the store
unchanged; transport failure → 502 `Customer service unavailable` with
the store unchanged. -/
theorem C1_order_verification_outcomes
    (url : String) (store : OrderStore) (t : Timing) (cid : Int) (p : String) (q : Int)
    (hpne : p.isEmpty = false) (hcpos : 0 < cid) (hplen : p.utf8ByteSize ≤ 255)
    (hqpos : 0 < q) :
    (∀ s, s ≠ 200 →
      axumCreateOrder url store (some ⟨some cid, some p, some q⟩) (.ok s) t =
        ⟨store, json_response 400 customerNotFoundBody,
         some (url ++ "/customers/" ++ toString cid)⟩ ∧
      spinCreateOrder url store (some ⟨some cid, some p, some q⟩) (.ok s) t =
        ⟨store, json_response 400 customerNotFoundBody,
         some (url ++ "/customers/" ++ toString cid)⟩) ∧
    (axumCreateOrder url store (some ⟨some cid, some p, some q⟩) .err t =
      ⟨store, json_response 502 customerUnavailableBody,
       some (url ++ "/customers/" ++ toString cid)⟩ ∧
     spinCreateOrder url store (some ⟨some cid, some p, some q⟩) .err t =
      ⟨store, json_response 502 customerUnavailableBody,
       some (url ++ "/customers/" ++ toString cid)⟩) ∧
    (axumCreateOrder url store (some ⟨some cid, some p, some q⟩) (.ok 200) t =
      ⟨⟨store.rows ++ [⟨store.nextId, cid, p, q⟩], store.nextId + 1⟩,
       ⟨201, [contentTypeJson, ("server-timing", orderCreateTimingValue t)],
        orderJson ⟨store.nextId, cid, p, q⟩⟩,
       some (url ++ "/customers/" ++ toString cid)⟩ ∧
     spinCreateOrder url store (some ⟨some cid, some p, some q⟩) (.ok 200) t =
      ⟨⟨store.rows ++ [⟨store.nextId, cid, p, q⟩], store.nextId + 1⟩,
       ⟨201, [contentTypeJson, ("server-timing", orderCreateTimingValue t)],
        orderJson ⟨store.nextId, cid, p, q⟩⟩,
       some (url ++ "/customers/" ++ toString cid)⟩) := by
  have hc : ¬ (cid ≤ 0) := by omega
  have hq : ¬ (q ≤ 0) := by omega
  refine ⟨fun s hs => ⟨?_, ?_⟩, ⟨?_, ?_⟩, ⟨?_, ?_⟩⟩
  · simp [axumCreateOrder, hpne, hs]
  · simp [spinCreateOrder, hpne, hplen, hc, hq, hs]
  · simp [axumCreateOrder, hpne]
  · simp [spinCreateOrder, hpne, hplen, hc, hq]
  · simp [axumCreateOrder, OrderStore.insert, hpne]
  · simp [spinCreateOrder, OrderStore.insert, hpne, hplen, hc, hq]

/-- Witness for C1 at a concrete passing request and a transport
failure. -/
theorem C1_witness :
    axumCreateOrder "http://localhost:8001" ⟨[], 1⟩ (some ⟨some 1, some "x", some 2⟩)
        .err ⟨"0", "0", "0", "0", "0"⟩ =
      ⟨⟨[], 1⟩, json_response 502 customerUnavailableBody,
       some ("http://localhost:8001" ++ "/customers/" ++ toString (1 : Int))⟩ :=
  (C1_order_verification_outcomes "http://localhost:8001" ⟨[], 1⟩ ⟨"0", "0", "0", "0", "0"⟩
    1 "x" 2 (by decide) (by decide) (by decide) (by decide)).2.1.1

/-- C2 counterexample: the axum order service performs no positivity or
length checks — `customer_id = 0` and `quantity = 0` pass its local
validation, the remote verification call is issued (a URL is recorded),
and the order is created with 201, where the claim requires a 400
before any remote call. -/
theorem C2_counterexample :
    (axumCreateOrder "u" ⟨[], 1⟩ (some ⟨some 0, some "x", some 0⟩) (.ok 200)
        ⟨"0", "0", "0", "0", "0"⟩).resp.status = 201 ∧
    (axumCreateOrder "u" ⟨[], 1⟩ (some ⟨some 0, some "x", some 0⟩) (.ok 200)
        ⟨"0", "0", "0", "0", "0"⟩).verifyUrl = some "u/customers/0" := by
  exact ⟨by decide, by decide⟩

/-- C2 amended: the spin order service validates `customer_id > 0`,
product non-empty and at most 255 bytes, and `quantity > 0`, each
violation yielding its distinct 400 message before the verification
call (no URL recorded) and with no order row created; the axum order
service checks only that all three fields are present and the product
non-empty (one shared 400 message, before the remote call, no row
created) — any present values, including non-positive ids/quantities
and over-long products, proceed to the remote verification. -/
theorem C2_order_validation_amended
    (url : String) (store : OrderStore) (t : Timing) (v : VerifyOutcome) :
    -- spin: the three distinct violations
    (∀ cid pOpt qOpt, cid ≤ 0 →
      spinCreateOrder url store (some ⟨some cid, pOpt, qOpt⟩) v t =
        ⟨store, json_response 400 customerIdPositiveBody, none⟩) ∧
    (∀ cid p qOpt, 0 < cid → 255 < p.utf8ByteSize →
      spinCreateOrder url store (some ⟨some cid, some p, qOpt⟩) v t =
        ⟨store, json_response 400 productTooLongBody, none⟩) ∧
    (∀ cid p q, 0 < cid → p.isEmpty = false → p.utf8ByteSize ≤ 255 → q ≤ 0 →
      spinCreateOrder url store (some ⟨some cid, some p, some q⟩) v t =
        ⟨store, json_response 400 quantityPositiveBody, none⟩) ∧
    -- axum: missing fields / empty product, one shared message
    (∀ pOpt qOpt,
      axumCreateOrder url store (some ⟨none, pOpt, qOpt⟩) v t =
        ⟨store, json_response 400 orderFieldsRequiredBody, none⟩) ∧
    (∀ cid qOpt,
      axumCreateOrder url store (some ⟨some cid, none, qOpt⟩) v t =
        ⟨store, json_response 400 orderFieldsRequiredBody, none⟩) ∧
    (∀ cid p qOpt, p.isEmpty = true →
      axumCreateOrder url store (some ⟨some cid, some p, qOpt⟩) v t =
        ⟨store, json_response 400 orderFieldsRequiredBody, none⟩) ∧
    (∀ cid p, p.isEmpty = false →
      axumCreateOrder url store (some ⟨some cid, some p, none⟩) v t =
        ⟨store, json_response 400 orderFieldsRequiredBody, none⟩) ∧
    -- axum: everything present goes remote, no positivity/length check
    (∀ cid p q, p.isEmpty = false →
      (axumCreateOrder url store (some ⟨some cid, some p, some q⟩) v t).verifyUrl =
        some (url ++ "/customers/" ++ toString cid)) := by
  refine ⟨fun cid pOpt qOpt h => ?_, fun cid p qOpt h1 h2 => ?_,
          fun cid p q h1 h2 h3 h4 => ?_, fun pOpt qOpt => ?_, fun cid qOpt => ?_,
          fun cid p qOpt h => ?_, fun cid p h => ?_, fun cid p q h => ?_⟩
  · simp [spinCreateOrder, h]
  · have h3 : ¬ (cid ≤ 0) := by omega
    have h4 : ¬ (p.utf8ByteSize ≤ 255) := by omega
    simp [spinCreateOrder, h2, h3, h4]
  · have h5 : ¬ (cid ≤ 0) := by omega
    simp [spinCreateOrder, h2, h3, h4, h5]
  · simp [axumCreateOrder]
  · simp [axumCreateOrder]
  · simp [axumCreateOrder, h]
  · simp [axumCreateOrder, h]
  · cases v with
    | ok s =>
      by_cases hs : s = 200 <;> simp [axumCreateOrder, h, hs]
    | err => simp [axumCreateOrder, h]

/-- Witness for C2's amended theorem: a non-positive quantity is
rejected by the spin service with its distinct message. -/
theorem C2_amended_witness :
    spinCreateOrder "u" ⟨[], 1⟩ (some ⟨some 1, some "x", some 0⟩) (.ok 200)
        ⟨"0", "0", "0", "0", "0"⟩ =
      ⟨⟨[], 1⟩, json_response 400 quantityPositiveBody, none⟩ :=
  (C2_order_validation_amended "u" ⟨[], 1⟩ ⟨"0", "0", "0", "0", "0"⟩ (.ok 200)).2.2.1
    1 "x" 0 (by decide) (by decide) (by decide) (by decide)

/-- C3 counterexample: the spin customer service accepts an email
without `@` — the request `name = "a"`, `email = "b"` is inserted and
answered with 201, where the claim requires 400 and no insert. -/
theorem C3_counterexample :
    (containsChar "b" '@') = false ∧
    spinCreateCustomer ⟨[], 1⟩ (some ⟨some "a", some "b"⟩) ⟨"0", "0", "0", "0", "0"⟩ =
      (⟨[⟨1, "a", "b"⟩], 2⟩,
       timed_response 201 (customerJson ⟨1, "a", "b"⟩) ⟨"0", "0", "0", "0", "0"⟩) := by
  exact ⟨by decide, by decide⟩

/-- C3 amended: the axum customer service behaves as claimed — 400 with
storage untouched for a missing or empty name or email, a name or email
over 255 bytes, or an email without `@`, and otherwise a 201 insert
returning the new record; the spin customer service checks only that
both fields are present and non-empty (400, storage untouched,
otherwise) and inserts and answers 201 even when the email lacks `@` or
either field exceeds 255 bytes. -/
theorem C3_customer_validation_amended
    (store : CustomerStore) (t : Timing) :
    -- axum: missing / empty fields
    (∀ eOpt, axumCreateCustomer store (some ⟨none, eOpt⟩) t =
      (store, json_response 400 nameEmailRequiredBody)) ∧
    (∀ n eOpt, n.isEmpty = true → axumCreateCustomer store (some ⟨some n, eOpt⟩) t =
      (store, json_response 400 nameEmailRequiredBody)) ∧
    (∀ n, n.isEmpty = false → axumCreateCustomer store (some ⟨some n, none⟩) t =
      (store, json_response 400 nameEmailRequiredBody)) ∧
    (∀ n e, n.isEmpty = false → e.isEmpty = true →
      axumCreateCustomer store (some ⟨some n, some e⟩) t =
        (store, json_response 400 nameEmailRequiredBody)) ∧
    -- axum: length and @ checks
    (∀ n e, n.isEmpty = false → e.isEmpty = false → 255 < n.utf8ByteSize →
      axumCreateCustomer store (some ⟨some n, some e⟩) t =
        (store, json_response 400 nameTooLongBody)) ∧
    (∀ n e, n.isEmpty = false → e.isEmpty = false → n.utf8ByteSize ≤ 255 →
      (255 < e.utf8ByteSize ∨ containsChar e '@' = false) →
      axumCreateCustomer store (some ⟨some n, some e⟩) t =
        (store, json_response 400 invalidEmailBody)) ∧
    -- axum: the valid case inserts
    (∀ n e, n.isEmpty = false → e.isEmpty = false → n.utf8ByteSize ≤ 255 →
      e.utf8ByteSize ≤ 255 → containsChar e '@' = true →
      axumCreateCustomer store (some ⟨some n, some e⟩) t =
        (⟨store.rows ++ [⟨store.nextId, n, e⟩], store.nextId + 1⟩,
         timed_response 201 (customerJson ⟨store.nextId, n, e⟩) t)) ∧
    -- spin: presence only, then always insert
    (∀ eOpt, spinCreateCustomer store (some ⟨none, eOpt⟩) t =
      (store, json_response 400 nameEmailRequiredBody)) ∧
    (∀ n eOpt, n.isEmpty = true → spinCreateCustomer store (some ⟨some n, eOpt⟩) t =
      (store, json_response 400 nameEmailRequiredBody)) ∧
    (∀ n, n.isEmpty = false → spinCreateCustomer store (some ⟨some n, none⟩) t =
      (store, json_response 400 nameEmailRequiredBody)) ∧
    (∀ n e, n.isEmpty = false → e.isEmpty = true →
      spinCreateCustomer store (some ⟨some n, some e⟩) t =
        (store, json_response 400 nameEmailRequiredBody)) ∧
    (∀ n e, n.isEmpty = false → e.isEmpty = false →
      spinCreateCustomer store (some ⟨some n, some e⟩) t =
        (⟨store.rows ++ [⟨store.nextId, n, e⟩], store.nextId + 1⟩,
         timed_response 201 (customerJson ⟨store.nextId, n, e⟩) t)) := by
  refine ⟨fun eOpt => ?_, fun n eOpt h => ?_, fun n h => ?_, fun n e hn he => ?_,
          fun n e hn he h => ?_, fun n e hn he hnl h => ?_,
          fun n e hn he hnl hel hat => ?_, fun eOpt => ?_, fun n eOpt h => ?_,
          fun n h => ?_, fun n e hn he => ?_, fun n e hn he => ?_⟩
  · simp [axumCreateCustomer]
  · simp [axumCreateCustomer, h]
  · simp [axumCreateCustomer, h]
  · simp [axumCreateCustomer, hn, he]
  · simp [axumCreateCustomer, hn, he, h]
  · have h2 : ¬ (255 < n.utf8ByteSize) := by omega
    simp [axumCreateCustomer, hn, he, h2, h]
  · have h2 : ¬ (255 < n.utf8ByteSize) := by omega
    have h3 : ¬ (255 < e.utf8ByteSize) := by omega
    simp [axumCreateCustomer, CustomerStore.insert, hn, he, h2, h3, hat]
  · simp [spinCreateCustomer]
  · simp [spinCreateCustomer, h]
  · simp [spinCreateCustomer, h]
  · simp [spinCreateCustomer, hn, he]
  · simp [spinCreateCustomer, CustomerStore.insert, hn, he]

/-- Witness for C3's amended theorem: the axum service rejects an email
without `@` and leaves the store untouched. -/
theorem C3_amended_witness :
    axumCreateCustomer ⟨[], 1⟩ (some ⟨some "a", some "b"⟩) ⟨"0", "0", "0", "0", "0"⟩ =
      (⟨[], 1⟩, json_response 400 invalidEmailBody) :=
  (C3_customer_validation_amended ⟨[], 1⟩ ⟨"0", "0", "0", "0", "0"⟩).2.2.2.2.2.1
    "a" "b" (by decide) (by decide) (by decide) (Or.inr (by decide))

theorem customers_not_literal (path : String)
    (h : strStartsWith path "/customers" = true) :
    path ≠ "/healthz" ∧ path ≠ "/compute" := by
  constructor
  · rintro rfl; exact absurd h (by decide)
  · rintro rfl; exact absurd h (by decide)

theorem orders_not_literal (path : String)
    (h : strStartsWith path "/orders" = true) :
    path ≠ "/healthz" ∧ path ≠ "/compute" := by
  constructor
  · rintro rfl; exact absurd h (by decide)
  · rintro rfl; exact absurd h (by decide)

/-- C4: for every inbound gateway request whose path starts with
`/customers` or `/orders`, both gateways issue an upstream request with
the original method and body, to the backend base URL concatenated with
the original path, with the fixed json content-type header; on an
upstream response they relay its status and body and its
`server-timing` header when present, dropping every other upstream
header in favour of `content-type: application/json`; on transport
failure they answer 502; for every path matching neither prefix and not
a literal route they answer 404 and issue no upstream request. -/
theorem C4_gateway_forwarding
    (customerUrl orderUrl : String) (m : Method) (path uri query body : String)
    (t : Timing) :
    (strStartsWith path "/customers" = true →
      ∀ upstream,
        (axumGatewayHandle customerUrl orderUrl m path query body t upstream).sent =
          some ⟨m, customerUrl ++ path, [contentTypeJson], body⟩ ∧
        (spinGatewayHandle customerUrl orderUrl m path uri body t upstream).sent =
          some ⟨m, customerUrl ++ path, [contentTypeJson], body⟩) ∧
    (strStartsWith path "/customers" = false → strStartsWith path "/orders" = true →
      ∀ upstream,
        (axumGatewayHandle customerUrl orderUrl m path query body t upstream).sent =
          some ⟨m, orderUrl ++ path, [contentTypeJson], body⟩ ∧
        (spinGatewayHandle customerUrl orderUrl m path uri body t upstream).sent =
          some ⟨m, orderUrl ++ path, [contentTypeJson], body⟩) ∧
    (strStartsWith path "/customers" = true ∨ strStartsWith path "/orders" = true →
      (∀ r,
        (axumGatewayHandle customerUrl orderUrl m path query body t (.ok r)).resp =
          proxyResponse r ∧
        (spinGatewayHandle customerUrl orderUrl m path uri body t (.ok r)).resp =
          proxyResponse r) ∧
      (∀ e,
        (axumGatewayHandle customerUrl orderUrl m path query body t (.err e)).resp =
          json_response 502 (upstreamUnavailableBody e) ∧
        (spinGatewayHandle customerUrl orderUrl m path uri body t (.err e)).resp =
          json_response 502 (upstreamUnavailableBody e))) ∧
    (∀ r, (proxyResponse r).status = r.status ∧ (proxyResponse r).body = r.body ∧
      (∀ v, findHeader r.headers "server-timing" = some v →
        (proxyResponse r).headers = [contentTypeJson, ("server-timing", v)]) ∧
      (findHeader r.headers "server-timing" = none →
        (proxyResponse r).headers = [contentTypeJson])) ∧
    (path ≠ "/healthz" → path ≠ "/compute" →
      strStartsWith path "/customers" = false → strStartsWith path "/orders" = false →
      ∀ upstream,
        axumGatewayHandle customerUrl orderUrl m path query body t upstream =
          ⟨none, json_response 404 notFoundBody⟩ ∧
        spinGatewayHandle customerUrl orderUrl m path uri body t upstream =
          ⟨none, json_response 404 notFoundBody⟩) := by
  refine ⟨fun hc upstream => ?_, fun hnc ho upstream => ?_, fun hpre => ⟨fun r => ?_, fun e => ?_⟩,
          fun r => ?_, fun hh hcp hnc hno upstream => ?_⟩
  · obtain ⟨h1, h2⟩ := customers_not_literal path hc
    cases upstream <;>
      simp [axumGatewayHandle, spinGatewayHandle, forward, h1, h2, hc]
  · obtain ⟨h1, h2⟩ := orders_not_literal path ho
    cases upstream <;>
      simp [axumGatewayHandle, spinGatewayHandle, forward, h1, h2, hnc, ho]
  · rcases hpre with hc | ho
    · obtain ⟨h1, h2⟩ := customers_not_literal path hc
      simp [axumGatewayHandle, spinGatewayHandle, forward, h1, h2, hc]
    · obtain ⟨h1, h2⟩ := orders_not_literal path ho
      by_cases hc : strStartsWith path "/customers" = true <;>
        simp [axumGatewayHandle, spinGatewayHandle, forward, h1, h2, hc, ho]
  · rcases hpre with hc | ho
    · obtain ⟨h1, h2⟩ := customers_not_literal path hc
      simp [axumGatewayHandle, spinGatewayHandle, forward, h1, h2, hc]
    · obtain ⟨h1, h2⟩ := orders_not_literal path ho
      by_cases hc : strStartsWith path "/customers" = true <;>
        simp [axumGatewayHandle, spinGatewayHandle, forward, h1, h2, hc, ho]
  · cases hsv : findHeader r.headers "server-timing" with
    | none =>
      refine ⟨by simp [proxyResponse, hsv], by simp [proxyResponse, hsv],
        fun v hv => ?_, fun hv => by simp [proxyResponse, hsv]⟩
      cases hv
    | some w =>
      refine ⟨by simp [proxyResponse, hsv], by simp [proxyResponse, hsv],
        fun v hv => ?_, fun hv => ?_⟩
      · injection hv with hw
        subst hw
        simp [proxyResponse, hsv]
      · cases hv
  · cases upstream <;>
      simp [axumGatewayHandle, spinGatewayHandle, hh, hcp, hnc, hno]

/-- Witness for C4 at `GET /customers/42`: the upstream request and the
relay of status, body and server-timing. -/
theorem C4_witness :
    (axumGatewayHandle "http://localhost:8001" "http://localhost:8002" Method.get
        "/customers/42" "" "B" ⟨"0", "0", "0", "0", "0"⟩
        (.ok ⟨200, [("x", "y")], "body"⟩)).sent =
      some ⟨Method.get, "http://localhost:8001" ++ "/customers/42",
            [contentTypeJson], "B"⟩ :=
  ((C4_gateway_forwarding "http://localhost:8001" "http://localhost:8002" Method.get
      "/customers/42" "/customers/42" "" "B" ⟨"0", "0", "0", "0", "0"⟩).1
    (by decide) (.ok ⟨200, [("x", "y")], "body"⟩)).1

/-- C5 counterexample: `DELETE /healthz` is not among the defined
operations yet the spin customer service answers it 200
`{"status":"ok"}`, and `PUT /customers` is answered by the axum
customer service with axum's built-in 405 whose body is empty, not
`{"error":"Method not allowed"}`. -/
theorem C5_counterexample :
    spinCustomerHandle true ⟨[], 1⟩ Method.delete "/healthz" none
        ⟨"0", "0", "0", "0", "0"⟩ =
      .ok (⟨[], 1⟩, json_response 200 statusOkBody) ∧
    (axumCustomerHandle ⟨[], 1⟩ Method.put "/customers" none
        ⟨"0", "0", "0", "0", "0"⟩).2 = axumDefault405 ∧
    axumDefault405.body ≠ methodNotAllowedBody := by
  exact ⟨by rw [spinCustomerHandle.eq_def, if_pos rfl], by decide, by decide⟩

/-- C5 amended: the spin services answer
405 `{"error":"Method not allowed"}` for every `(method, resource id)`
combination outside their dispatch arms on paths other than `/healthz`,
but `/healthz` answers 200 `{"status":"ok"}` to every method; the axum
services answer the JSON 405 via their `method_not_allowed` fallback
only for paths matching no declared route — a matched path with an
unregistered method receives axum's built-in 405 with an empty body. -/
theorem C5_method_not_allowed_amended
    (cstore : CustomerStore) (ostore : OrderStore) (url : String)
    (ci : Option CreateCustomerRequest) (oi : Option CreateOrderRequest)
    (v : VerifyOutcome) (t : Timing) :
    -- axum customer service: unmatched paths reach the JSON fallback
    (∀ m path, path ≠ "/healthz" → path ≠ "/customers/ping" → path ≠ "/customers" →
      pathParam path "/customers" = none →
      axumCustomerHandle cstore m path ci t =
        (cstore, json_response 405 methodNotAllowedBody)) ∧
    -- axum customer service: matched path, unregistered method
    (∀ m, m ≠ Method.get →
      axumCustomerHandle cstore m "/healthz" ci t = (cstore, axumDefault405) ∧
      axumCustomerHandle cstore m "/customers/ping" ci t = (cstore, axumDefault405)) ∧
    (∀ m, m ≠ Method.get → m ≠ Method.post →
      axumCustomerHandle cstore m "/customers" ci t = (cstore, axumDefault405)) ∧
    (∀ m path, m ≠ Method.get → m ≠ Method.delete →
      (pathParam path "/customers").isSome = true →
      axumCustomerHandle cstore m path ci t = (cstore, axumDefault405)) ∧
    -- axum order service: the same split
    (∀ m path, path ≠ "/healthz" → path ≠ "/orders" →
      pathParam path "/orders" = none →
      axumOrderHandle url ostore m path oi v t =
        ⟨ostore, json_response 405 methodNotAllowedBody, none⟩) ∧
    (∀ m, m ≠ Method.get →
      axumOrderHandle url ostore m "/healthz" oi v t = ⟨ostore, axumDefault405, none⟩) ∧
    (∀ m, m ≠ Method.get → m ≠ Method.post →
      axumOrderHandle url ostore m "/orders" oi v t = ⟨ostore, axumDefault405, none⟩) ∧
    (∀ m path, m ≠ Method.get → (pathParam path "/orders").isSome = true →
      axumOrderHandle url ostore m path oi v t = ⟨ostore, axumDefault405, none⟩) ∧
    -- spin services: undefined combinations are 405 away from /healthz
    (∀ path, path ≠ "/healthz" → (parse_path path).isSome = true →
      spinCustomerHandle true cstore Method.post path ci t =
        .ok (cstore, json_response 405 methodNotAllowedBody)) ∧
    (∀ path, path ≠ "/healthz" → parse_path path = none →
      spinCustomerHandle true cstore Method.delete path ci t =
        .ok (cstore, json_response 405 methodNotAllowedBody)) ∧
    (∀ m path, path ≠ "/healthz" →
      (m = Method.put ∨ m = Method.patch ∨ m = Method.head ∨ m = Method.options) →
      spinCustomerHandle true cstore m path ci t =
        .ok (cstore, json_response 405 methodNotAllowedBody)) ∧
    (∀ path, path ≠ "/healthz" → (parse_path path).isSome = true →
      spinOrderHandle true url ostore Method.post path oi v t =
        .ok ⟨ostore, json_response 405 methodNotAllowedBody, none⟩) ∧
    (∀ m path, path ≠ "/healthz" →
      (m = Method.put ∨ m = Method.delete ∨ m = Method.patch ∨ m = Method.head ∨
        m = Method.options) →
      spinOrderHandle true url ostore m path oi v t =
        .ok ⟨ostore, json_response 405 methodNotAllowedBody, none⟩) ∧
    -- spin services: /healthz answers every method with 200
    (∀ m, spinCustomerHandle true cstore m "/healthz" ci t =
        .ok (cstore, json_response 200 statusOkBody) ∧
      spinOrderHandle true url ostore m "/healthz" oi v t =
        .ok ⟨ostore, json_response 200 statusOkBody, none⟩) := by
  have hcphz : pathParam "/healthz" "/customers" = none := by decide
  have hcpc : pathParam "/customers" "/customers" = none := by decide
  have hophz : pathParam "/healthz" "/orders" = none := by decide
  have hopo : pathParam "/orders" "/orders" = none := by decide
  refine ⟨fun m path h1 h2 h3 h4 => ?_, fun m hm => ⟨?_, ?_⟩, fun m hg hp => ?_,
          fun m path hg hd hsome => ?_, fun m path h1 h2 h3 => ?_, fun m hm => ?_,
          fun m hg hp => ?_, fun m path hg hsome => ?_,
          fun path h1 h2 => ?_, fun path h1 h2 => ?_, fun m path h1 h2 => ?_,
          fun path h1 h2 => ?_, fun m path h1 h2 => ?_, fun m => ⟨?_, ?_⟩⟩
  · rw [axumCustomerHandle, if_neg h1, if_neg h2, if_neg h3, h4]
  · rw [axumCustomerHandle, if_pos rfl, if_neg hm]
  · rw [axumCustomerHandle,
      if_neg (show ("/customers/ping" : String) ≠ "/healthz" from by decide),
      if_pos rfl, if_neg hm]
  · rw [axumCustomerHandle,
      if_neg (show ("/customers" : String) ≠ "/healthz" from by decide),
      if_neg (show ("/customers" : String) ≠ "/customers/ping" from by decide),
      if_pos rfl, if_neg hg, if_neg hp]
  · have hh : path ≠ "/healthz" := by
      rintro rfl; rw [hcphz] at hsome; simp at hsome
    have hcu : path ≠ "/customers" := by
      rintro rfl; rw [hcpc] at hsome; simp at hsome
    by_cases hpg : path = "/customers/ping"
    · subst hpg
      rw [axumCustomerHandle, if_neg hh, if_pos rfl, if_neg hg]
    · rw [axumCustomerHandle, if_neg hh, if_neg hpg, if_neg hcu]
      cases hps : pathParam path "/customers" with
      | none => rw [hps] at hsome; simp at hsome
      | some seg => simp [hg, hd]
  · rw [axumOrderHandle, if_neg h1, if_neg h2, h3]
  · rw [axumOrderHandle, if_pos rfl, if_neg hm]
  · rw [axumOrderHandle,
      if_neg (show ("/orders" : String) ≠ "/healthz" from by decide),
      if_pos rfl, if_neg hg, if_neg hp]
  · have hh : path ≠ "/healthz" := by
      rintro rfl; rw [hophz] at hsome; simp at hsome
    have hor : path ≠ "/orders" := by
      rintro rfl; rw [hopo] at hsome; simp at hsome
    rw [axumOrderHandle, if_neg hh, if_neg hor]
    cases hps : pathParam path "/orders" with
    | none => rw [hps] at hsome; simp at hsome
    | some seg => simp [hg]
  · rw [spinCustomerHandle, if_neg h1, if_neg (show ¬(true = false) from by decide)]
    cases hpp : parse_path path with
    | none => rw [hpp] at h2; exact absurd h2 (by decide)
    | some idStr => rfl
  · rw [spinCustomerHandle, if_neg h1, if_neg (show ¬(true = false) from by decide), h2]
  · rcases h2 with rfl | rfl | rfl | rfl <;>
      rw [spinCustomerHandle, if_neg h1, if_neg (show ¬(true = false) from by decide)]
  · rw [spinOrderHandle, if_neg h1, if_neg (show ¬(true = false) from by decide)]
    cases hpp : parse_path path with
    | none => rw [hpp] at h2; exact absurd h2 (by decide)
    | some idStr => rfl
  · rcases h2 with rfl | rfl | rfl | rfl | rfl <;>
      rw [spinOrderHandle, if_neg h1, if_neg (show ¬(true = false) from by decide)]
  · rw [spinCustomerHandle.eq_def, if_pos rfl]
  · rw [spinOrderHandle.eq_def, if_pos rfl]

/-- Witness for C5's amended theorem: an unmatched path (`PUT /foo`)
reaches the axum fallback and is answered the JSON 405. -/
theorem C5_amended_witness :
    axumCustomerHandle ⟨[], 1⟩ Method.put "/foo" none ⟨"0", "0", "0", "0", "0"⟩ =
      (⟨[], 1⟩, json_response 405 methodNotAllowedBody) :=
  (C5_method_not_allowed_amended ⟨[], 1⟩ ⟨[], 1⟩ "u" none none (.ok 200)
      ⟨"0", "0", "0", "0", "0"⟩).1
    Method.put "/foo" (by decide) (by decide) (by decide) (by decide)

/-- C6 counterexample: `GET /compute?n=abc` — `n` present but not a
`u64` — is answered 400 by the axum gateway (the `Query` extractor
rejects the request), not 200 behaving as `n = 1000` as the claim
states. -/
theorem C6_counterexample :
    (axumGatewayHandle "cu" "ou" Method.get "/compute" "n=abc" ""
        ⟨"0", "0", "0", "0", "0"⟩ (.err "x")).resp.status = 400 ∧
    (axumGatewayHandle "cu" "ou" Method.get "/compute" "n=abc" ""
        ⟨"0", "0", "0", "0", "0"⟩ (.err "x")).resp ≠
      computeResponse 1000 ⟨"0", "0", "0", "0", "0"⟩ := by
  exact ⟨by decide, by decide⟩

/-- C6 amended: the spin gateway answers `/compute` with 200, taking
`n = 1000` both when `n` is absent and when it is unparsable; the axum
gateway takes `n = 1000` only when `n` is absent from the query, and
answers 400 (the `Query` extractor rejection) when `n` is present but
does not parse as a `u64`. -/
theorem C6_compute_default_amended
    (cu ou uri query body : String) (t : Timing) (up : UpstreamResult) :
    (parse_query_param uri "n" = none →
      spinGatewayHandle cu ou Method.get "/compute" uri body t up =
        ⟨none, computeResponse 1000 t⟩) ∧
    ((spinGatewayHandle cu ou Method.get "/compute" uri body t up).resp.status = 200) ∧
    (axumExtractComputeN query = some none →
      axumGatewayHandle cu ou Method.get "/compute" query body t up =
        ⟨none, computeResponse 1000 t⟩) ∧
    (axumExtractComputeN query = none →
      axumGatewayHandle cu ou Method.get "/compute" query body t up =
        ⟨none, queryRejection⟩ ∧ queryRejection.status = 400) := by
  have hne : ("/compute" : String) ≠ "/healthz" := by decide
  refine ⟨fun h => ?_, ?_, fun h => ?_, fun h => ?_⟩
  · rw [spinGatewayHandle, if_neg hne, if_pos rfl, h]
    rfl
  · rw [spinGatewayHandle, if_neg hne, if_pos rfl]
    rfl
  · rw [axumGatewayHandle, if_neg hne, if_pos rfl, h]
    rfl
  · refine ⟨?_, rfl⟩
    rw [axumGatewayHandle, if_neg hne, if_pos rfl, h]

/-- Witness for C6's amended theorem: an unparsable `n` defaults to
1000 on the spin gateway. -/
theorem C6_amended_witness :
    spinGatewayHandle "cu" "ou" Method.get "/compute" "/compute?n=abc" ""
        ⟨"0", "0", "0", "0", "0"⟩ (.err "x") =
      ⟨none, computeResponse 1000 ⟨"0", "0", "0", "0", "0"⟩⟩ :=
  (C6_compute_default_amended "cu" "ou" "/compute?n=abc" "" ""
    ⟨"0", "0", "0", "0", "0"⟩ (.err "x")).1 (by decide)

/-! ## List helpers for the store lemmas -/

theorem find?_filter_not {α : Type} (p : α → Bool) (l : List α) :
    (l.filter (fun x => !(p x))).find? p = none := by
  rw [List.find?_eq_none]
  intro x hx
  have h := (List.mem_filter.mp hx).2
  simp only [Bool.not_eq_true'] at h
  simp [h]

theorem filter_eq_nil_of_find?_none {α : Type} (p : α → Bool) (l : List α)
    (h : l.find? p = none) : l.filter p = [] := by
  rw [List.filter_eq_nil_iff]
  intro a ha
  exact (List.find?_eq_none.mp h) a ha

theorem filter_not_eq_self_of_find?_none {α : Type} (p : α → Bool) (l : List α)
    (h : l.find? p = none) : l.filter (fun x => !(p x)) = l := by
  rw [List.filter_eq_self]
  intro a ha
  have := (List.find?_eq_none.mp h) a ha
  simp only [Bool.not_eq_true'] at this ⊢
  simp [this]

theorem filter_ne_nil_of_find?_some {α : Type} (p : α → Bool) (l : List α) (c : α)
    (h : l.find? p = some c) : l.filter p ≠ [] := by
  intro hnil
  have hc : c ∈ l := List.mem_of_find?_eq_some h
  have hp : p c = true := List.find?_some h
  have hmem : c ∈ l.filter p := List.mem_filter.mpr ⟨hc, hp⟩
  rw [hnil] at hmem
  cases hmem

theorem find?_append_right_fresh {α : Type} (p : α → Bool) (l : List α) (c : α)
    (h : ∀ x ∈ l, p x = false) (hc : p c = true) :
    (l ++ [c]).find? p = some c := by
  induction l with
  | nil => simp [List.find?, hc]
  | cons a as ih =>
    have ha : ¬ (p a = true) := by simp [h a (by simp)]
    rw [List.cons_append, List.find?_cons_of_neg _ ha]
    exact ih (fun x hx => h x (by simp [hx]))

/-- C8: deleting a nonexistent customer id answers 404 with the store
unchanged; deleting an existing one answers 204 with an empty body, and
a subsequent GET of that id answers 404 — in both implementations. -/
theorem C8_delete_customer
    (store : CustomerStore) (id : Int) (idStr : String) (t t2 : Timing) (c : Customer)
    (hid : parseI64 idStr = some id) :
    (store.find id = none →
      axumDeleteCustomer store id t = (store, json_response 404 customerNotFoundBody) ∧
      spinDeleteCustomer store idStr t = (store, json_response 404 customerNotFoundBody)) ∧
    (store.find id = some c →
      axumDeleteCustomer store id t =
        (store.erase id, ⟨204, [("server-timing", deleteTimingValue t)], ""⟩) ∧
      spinDeleteCustomer store idStr t =
        (store.erase id, ⟨204, [("server-timing", deleteTimingValue t)], ""⟩) ∧
      axumGetCustomer (store.erase id) id t2 = json_response 404 customerNotFoundBody ∧
      spinGetCustomer (store.erase id) idStr t2 = json_response 404 customerNotFoundBody) := by
  constructor
  · intro h
    have hnil : store.rows.filter (fun c => c.id == id) = [] :=
      filter_eq_nil_of_find?_none _ _ h
    have hself : store.rows.filter (fun c => !(c.id == id)) = store.rows :=
      filter_not_eq_self_of_find?_none _ _ h
    constructor
    · simp [axumDeleteCustomer, CustomerStore.affected, CustomerStore.erase, hnil, hself]
    · simp [spinDeleteCustomer, hid, hnil]
  · intro h
    have hne : store.rows.filter (fun c => c.id == id) ≠ [] :=
      filter_ne_nil_of_find?_some _ _ _ h
    have hlen : ¬ ((store.rows.filter (fun c => c.id == id)).length = 0) := by
      intro h0
      exact hne (List.length_eq_zero.mp h0)
    have hie : (store.rows.filter (fun c => c.id == id)).isEmpty = false := by
      cases hl : store.rows.filter (fun c => c.id == id) with
      | nil => exact absurd hl hne
      | cons a as => rfl
    have hfind : (store.rows.filter (fun c => !(c.id == id))).find?
        (fun c => c.id == id) = none := find?_filter_not _ _
    refine ⟨?_, ?_, ?_, ?_⟩
    · simp [axumDeleteCustomer, CustomerStore.affected, CustomerStore.erase, hlen]
    · simp [spinDeleteCustomer, hid, CustomerStore.erase, hie]
    · simp [axumGetCustomer, CustomerStore.find, CustomerStore.erase, hfind]
    · simp [spinGetCustomer, hid, CustomerStore.find, CustomerStore.erase, hfind]

/-- Witness for C8 at a concrete one-row store. -/
theorem C8_witness :
    axumDeleteCustomer ⟨[⟨1, "a", "a@b"⟩], 2⟩ 1 ⟨"0", "0", "0", "0", "0"⟩ =
      (CustomerStore.erase ⟨[⟨1, "a", "a@b"⟩], 2⟩ 1,
       ⟨204, [("server-timing", deleteTimingValue ⟨"0", "0", "0", "0", "0"⟩)], ""⟩) :=
  ((C8_delete_customer ⟨[⟨1, "a", "a@b"⟩], 2⟩ 1 "1" ⟨"0", "0", "0", "0", "0"⟩
      ⟨"0", "0", "0", "0", "0"⟩ ⟨1, "a", "a@b"⟩ (by decide)).2 (by decide)).1

/-- C9: for each implementation and each entity, a successful POST
answers 201 with the serialized new record, and an immediately
following GET of the returned id answers 200 with the identical
serialized record. -/
theorem C9_post_then_get_roundtrip
    (cstore : CustomerStore) (ostore : OrderStore) (url idStr oidStr : String)
    (t t2 : Timing) (n e p : String) (cid q : Int)
    (hn : n.isEmpty = false) (he : e.isEmpty = false)
    (hnl : n.utf8ByteSize ≤ 255) (hel : e.utf8ByteSize ≤ 255)
    (hat : containsChar e '@' = true)
    (hcf : cstore.fresh = true)
    (hpne : p.isEmpty = false) (hcpos : 0 < cid) (hplen : p.utf8ByteSize ≤ 255)
    (hqpos : 0 < q)
    (hof : ostore.fresh = true)
    (hids : parseI64 idStr = some cstore.nextId)
    (hoids : parseI64 oidStr = some ostore.nextId) :
    (axumCreateCustomer cstore (some ⟨some n, some e⟩) t =
      (⟨cstore.rows ++ [⟨cstore.nextId, n, e⟩], cstore.nextId + 1⟩,
       timed_response 201 (customerJson ⟨cstore.nextId, n, e⟩) t) ∧
     axumGetCustomer ⟨cstore.rows ++ [⟨cstore.nextId, n, e⟩], cstore.nextId + 1⟩
         cstore.nextId t2 =
       timed_response 200 (customerJson ⟨cstore.nextId, n, e⟩) t2) ∧
    (spinCreateCustomer cstore (some ⟨some n, some e⟩) t =
      (⟨cstore.rows ++ [⟨cstore.nextId, n, e⟩], cstore.nextId + 1⟩,
       timed_response 201 (customerJson ⟨cstore.nextId, n, e⟩) t) ∧
     spinGetCustomer ⟨cstore.rows ++ [⟨cstore.nextId, n, e⟩], cstore.nextId + 1⟩
         idStr t2 =
       timed_response 200 (customerJson ⟨cstore.nextId, n, e⟩) t2) ∧
    (axumCreateOrder url ostore (some ⟨some cid, some p, some q⟩) (.ok 200) t =
      ⟨⟨ostore.rows ++ [⟨ostore.nextId, cid, p, q⟩], ostore.nextId + 1⟩,
       ⟨201, [contentTypeJson, ("server-timing", orderCreateTimingValue t)],
        orderJson ⟨ostore.nextId, cid, p, q⟩⟩,
       some (url ++ "/customers/" ++ toString cid)⟩ ∧
     axumGetOrder ⟨ostore.rows ++ [⟨ostore.nextId, cid, p, q⟩], ostore.nextId + 1⟩
         ostore.nextId t2 =
       timed_response 200 (orderJson ⟨ostore.nextId, cid, p, q⟩) t2) ∧
    (spinCreateOrder url ostore (some ⟨some cid, some p, some q⟩) (.ok 200) t =
      ⟨⟨ostore.rows ++ [⟨ostore.nextId, cid, p, q⟩], ostore.nextId + 1⟩,
       ⟨201, [contentTypeJson, ("server-timing", orderCreateTimingValue t)],
        orderJson ⟨ostore.nextId, cid, p, q⟩⟩,
       some (url ++ "/customers/" ++ toString cid)⟩ ∧
     spinGetOrder ⟨ostore.rows ++ [⟨ostore.nextId, cid, p, q⟩], ostore.nextId + 1⟩
         oidStr t2 =
       timed_response 200 (orderJson ⟨ostore.nextId, cid, p, q⟩) t2) := by
  have hc : ¬ (cid ≤ 0) := by omega
  have hq2 : ¬ (q ≤ 0) := by omega
  have hn2 : ¬ (255 < n.utf8ByteSize) := by omega
  have he2 : ¬ (255 < e.utf8ByteSize) := by omega
  have hcf2 : ∀ x ∈ cstore.rows, (x.id == cstore.nextId) = false := by
    intro x hx
    have := (List.all_eq_true.mp hcf) x hx
    simpa using this
  have hof2 : ∀ x ∈ ostore.rows, (x.id == ostore.nextId) = false := by
    intro x hx
    have := (List.all_eq_true.mp hof) x hx
    simpa using this
  have hfc : (cstore.rows ++ [(⟨cstore.nextId, n, e⟩ : Customer)]).find?
      (fun c => c.id == cstore.nextId) = some ⟨cstore.nextId, n, e⟩ :=
    find?_append_right_fresh _ _ _ hcf2 (by simp)
  have hfo : (ostore.rows ++ [(⟨ostore.nextId, cid, p, q⟩ : Order)]).find?
      (fun o => o.id == ostore.nextId) = some ⟨ostore.nextId, cid, p, q⟩ :=
    find?_append_right_fresh _ _ _ hof2 (by simp)
  refine ⟨⟨?_, ?_⟩, ⟨?_, ?_⟩, ⟨?_, ?_⟩, ⟨?_, ?_⟩⟩
  · simp [axumCreateCustomer, CustomerStore.insert, hn, he, hn2, he2, hat]
  · simp [axumGetCustomer, CustomerStore.find, hfc]
  · simp [spinCreateCustomer, CustomerStore.insert, hn, he]
  · simp [spinGetCustomer, hids, CustomerStore.find, hfc]
  · simp [axumCreateOrder, OrderStore.insert, hpne]
  · simp [axumGetOrder, OrderStore.find, hfo]
  · simp [spinCreateOrder, OrderStore.insert, hpne, hplen, hc, hq2]
  · simp [spinGetOrder, hoids, OrderStore.find, hfo]

/-- Witness for C9: POST then GET of a concrete customer. -/
theorem C9_witness :
    axumGetCustomer ⟨[] ++ [⟨1, "a", "a@b"⟩], 1 + 1⟩ 1 ⟨"9", "9", "9", "9", "9"⟩ =
      timed_response 200 (customerJson ⟨1, "a", "a@b"⟩) ⟨"9", "9", "9", "9", "9"⟩ :=
  (C9_post_then_get_roundtrip ⟨[], 1⟩ ⟨[], 1⟩ "u" "1" "1" ⟨"0", "0", "0", "0", "0"⟩
      ⟨"9", "9", "9", "9", "9"⟩ "a" "a@b" "x" 1 1 (by decide) (by decide) (by decide)
      (by decide) (by decide) (by decide) (by decide) (by decide) (by decide)
      (by decide) (by decide) (by decide) (by decide)).1.2

/-- C10: in both spin services every request whose path is not
`/healthz` opens the database connection before the `(method, resource
id)` dispatch, so when the connection cannot be opened the handler
fails with an error (surfaced by the host as a server error) for every
method and path — including combinations that would otherwise be
answered 405 — while `/healthz` still answers 200. -/
theorem C10_spin_connection_before_routing
    (cstore : CustomerStore) (ostore : OrderStore) (url : String) (m : Method)
    (path : String) (ci : Option CreateCustomerRequest) (oi : Option CreateOrderRequest)
    (v : VerifyOutcome) (t : Timing) (h : path ≠ "/healthz") :
    spinCustomerHandle false cstore m path ci t =
      .error "failed to open database connection" ∧
    spinOrderHandle false url ostore m path oi v t =
      .error "failed to open database connection" ∧
    spinCustomerHandle false cstore m "/healthz" ci t =
      .ok (cstore, json_response 200 statusOkBody) ∧
    spinOrderHandle false url ostore m "/healthz" oi v t =
      .ok ⟨ostore, json_response 200 statusOkBody, none⟩ := by
  refine ⟨?_, ?_, ?_, ?_⟩
  · rw [spinCustomerHandle.eq_def, if_neg h, if_pos rfl]
  · rw [spinOrderHandle.eq_def, if_neg h, if_pos rfl]
  · rw [spinCustomerHandle.eq_def, if_pos rfl]
  · rw [spinOrderHandle.eq_def, if_pos rfl]

/-- Witness for C10: `PUT /customers` fails when the connection cannot
be opened, though it would be a 405 with a working connection. -/
theorem C10_witness :
    spinCustomerHandle false ⟨[], 1⟩ Method.put "/customers" none
        ⟨"0", "0", "0", "0", "0"⟩ = .error "failed to open database connection" :=
  (C10_spin_connection_before_routing ⟨[], 1⟩ ⟨[], 1⟩ "u" Method.put "/customers"
      none none (.ok 200) ⟨"0", "0", "0", "0", "0"⟩ (by decide)).1

end Crm
